import Mathlib

/-!
Verification of the rumble-test script (src/rumble-test.py): a linear USB
flow that locates a wireless receiver by vendor/product id, resolves an
interrupt-OUT endpoint on the active configuration, claims the owning
interface, and writes an activation then a deactivation packet.

The script is embedded shallowly: descriptors become structures, the
endpoint-scan loops become structural recursion, and the observable
behaviour of a whole run becomes a trace of events (USB operations,
the sleep, the final print, or a raised exception).
-/

namespace Rumble

/-- USB endpoint descriptor, restricted to the two fields the script reads:
the endpoint address and the attributes byte. -/
structure Endpoint where
  bEndpointAddress : Nat
  bmAttributes : Nat
  deriving DecidableEq

/-- USB interface descriptor: its interface number and its endpoint
descriptors in descriptor order (iterating a pyusb interface yields the
endpoints in this order). -/
structure Interface where
  bInterfaceNumber : Nat
  endpoints : List Endpoint
  deriving DecidableEq

/-- Active USB configuration: its interfaces in configuration order
(iterating a pyusb configuration yields the interfaces in this order). -/
structure Config where
  interfaces : List Interface
  deriving DecidableEq

/-- Models usb.util.ENDPOINT_OUT (0x00). -/
def ENDPOINT_OUT : Nat := 0x00

/-- Models usb.util.ENDPOINT_IN (0x80). -/
def ENDPOINT_IN : Nat := 0x80

/-- Models usb.util.ENDPOINT_TYPE_INTR (0x03). -/
def ENDPOINT_TYPE_INTR : Nat := 0x03

/-- Models usb.util.endpoint_direction: the address masked with the
direction bit 0x80. -/
def endpoint_direction (address : Nat) : Nat := address &&& 0x80

/-- Models usb.util.endpoint_type: the attributes byte masked with the
transfer-type bits 0x03. -/
def endpoint_type (bmAttributes : Nat) : Nat := bmAttributes &&& 0x03

/-- The test on lines 23-24 of the script: the endpoint has direction OUT
and transfer type interrupt. -/
def qualifies (ep : Endpoint) : Bool :=
  endpoint_direction ep.bEndpointAddress == ENDPOINT_OUT &&
  endpoint_type ep.bmAttributes == ENDPOINT_TYPE_INTR

/-- Inner loop of lines 22-27: scan one interface's endpoints in descriptor
order and stop at the first qualifying one (the `break` on line 27 exits
only this inner loop). -/
def findIntrOut : List Endpoint → Option Endpoint
  | [] => none
  | ep :: rest => if qualifies ep then some ep else findIntrOut rest

/-- Effect of one outer-loop iteration (line 21) on the `(ep_out, intf)`
state: an interface holding a qualifying endpoint overwrites the current
selection with that endpoint and itself; otherwise the state is unchanged. -/
def scanInterface (acc : Option (Endpoint × Interface)) (i : Interface) :
    Option (Endpoint × Interface) :=
  match findIntrOut i.endpoints with
  | some ep => some (ep, i)
  | none => acc

/-- The outer loop of lines 21-27, threading the `(ep_out, intf)` state
through the interfaces in configuration order. -/
def resolveLoop : List Interface → Option (Endpoint × Interface) →
    Option (Endpoint × Interface)
  | [], acc => acc
  | i :: rest, acc => resolveLoop rest (scanInterface acc i)

/-- Endpoint resolution, lines 18-27: `ep_out` and `intf` start as `None`
and are the final state of the nested loops. -/
def resolve (cfg : Config) : Option (Endpoint × Interface) :=
  resolveLoop cfg.interfaces none

/-- Target vendor id (line 5). -/
def VID : Nat := 0x045e

/-- Target product id (line 6). -/
def PID : Nat := 0x0719

/-- An attached USB device: its vendor/product ids and the configuration
that becomes active after `set_configuration` (the one
`get_active_configuration` then returns). -/
structure Device where
  idVendor : Nat
  idProduct : Nat
  activeConfig : Config
  deriving DecidableEq

/-- Models usb.core.find(idVendor=VID, idProduct=PID) over the attached
devices: the first device matching both ids, else `none` (line 8). -/
def find : List Device → Option Device
  | [] => none
  | d :: rest =>
    if d.idVendor == VID && d.idProduct == PID then some d else find rest

/-- Observable events of one run of the script, in program order. -/
inductive Event where
  | findDevice
  | setConfiguration
  | getActiveConfiguration
  | claimInterface (number : Nat)
  | write (address : Nat) (data : List Nat)
  | sleep (seconds : Nat)
  | printDone
  | raiseError (message : String)
  | releaseInterface (number : Nat)
  deriving DecidableEq

/-- The rumble activation packet of line 35. -/
def rumbleData : List Nat := [0x00, 0x08, 0xFF, 0xFF, 0, 0, 0, 0]

/-- The rumble deactivation packet of line 43. -/
def stopData : List Nat := [0x00, 0x08, 0x00, 0x00, 0, 0, 0, 0]

/-- The whole script, lines 8-46, as the trace of events it performs on a
given list of attached devices. A raised exception ends the trace; the
`releaseInterface` event exists in the vocabulary but the script never
emits it. -/
def run (devices : List Device) : List Event :=
  Event.findDevice ::
    match find devices with
    | none => [Event.raiseError "Receiver not found"]
    | some dev =>
      Event.setConfiguration :: Event.getActiveConfiguration ::
        match resolve dev.activeConfig with
        | none => [Event.raiseError "Interrupt OUT endpoint not found"]
        | some (ep, i) =>
          [Event.claimInterface i.bInterfaceNumber,
           Event.write ep.bEndpointAddress rumbleData,
           Event.sleep 2,
           Event.write ep.bEndpointAddress stopData,
           Event.printDone]

/-- The (address, payload) pairs of the write events of a trace, in order. -/
def writesOf : List Event → List (Nat × List Nat)
  | [] => []
  | Event.write a d :: rest => (a, d) :: writesOf rest
  | _ :: rest => writesOf rest

/-- Whether an event is an interface release. -/
def isRelease : Event → Bool
  | Event.releaseInterface _ => true
  | _ => false

/-- Big-step behaviour of the script as a relation between the attached
devices and the emitted trace, one constructor per exit path of the code:
device not found (lines 10-11), endpoint not found (lines 29-30), and the
successful run through line 46. -/
inductive Runs : List Device → List Event → Prop where
  | notFound (devices : List Device) (h : find devices = none) :
      Runs devices [Event.findDevice, Event.raiseError "Receiver not found"]
  | noEndpoint (devices : List Device) (dev : Device)
      (h1 : find devices = some dev) (h2 : resolve dev.activeConfig = none) :
      Runs devices [Event.findDevice, Event.setConfiguration,
        Event.getActiveConfiguration,
        Event.raiseError "Interrupt OUT endpoint not found"]
  | success (devices : List Device) (dev : Device) (ep : Endpoint)
      (i : Interface) (h1 : find devices = some dev)
      (h2 : resolve dev.activeConfig = some (ep, i)) :
      Runs devices [Event.findDevice, Event.setConfiguration,
        Event.getActiveConfiguration,
        Event.claimInterface i.bInterfaceNumber,
        Event.write ep.bEndpointAddress rumbleData,
        Event.sleep 2,
        Event.write ep.bEndpointAddress stopData,
        Event.printDone]

/- Concrete fixtures used to exercise the theorems below. -/

/-- Interrupt-OUT endpoint with address 0x01. -/
def epA : Endpoint := ⟨0x01, 0x03⟩

/-- Interrupt-OUT endpoint with address 0x02. -/
def epB : Endpoint := ⟨0x02, 0x03⟩

/-- Interrupt-IN endpoint with address 0x81. -/
def epIn : Endpoint := ⟨0x81, 0x03⟩

/-- Bulk-OUT endpoint with address 0x03. -/
def epBulk : Endpoint := ⟨0x03, 0x02⟩

/-- Control endpoint with address 0x00. -/
def epCtrl : Endpoint := ⟨0x00, 0x00⟩

/-- Interface 0 holding the interrupt-OUT endpoint `epA`. -/
def intfA : Interface := ⟨0, [epA]⟩

/-- Interface 1 holding the interrupt-OUT endpoint `epB`. -/
def intfB : Interface := ⟨1, [epB]⟩

/-- Configuration with qualifying interrupt-OUT endpoints on two distinct
interfaces. -/
def twoIntfConfig : Config := ⟨[intfA, intfB]⟩

/-- Interface holding an interrupt-IN endpoint before an interrupt-OUT
endpoint. -/
def intfMixed : Interface := ⟨0, [epIn, epA]⟩

/-- Configuration with both an interrupt-IN and an interrupt-OUT
endpoint. -/
def mixedConfig : Config := ⟨[intfMixed]⟩

/-- Matching device whose configuration offers only a bulk-OUT and a
control endpoint. -/
def bulkDev : Device := ⟨VID, PID, ⟨[⟨0, [epBulk, epCtrl]⟩]⟩⟩

/-- Matching device with a single interrupt-OUT endpoint. -/
def goodDev : Device := ⟨VID, PID, ⟨[intfA]⟩⟩

/-- Matching device with both an interrupt-IN and an interrupt-OUT
endpoint. -/
def mixedDev : Device := ⟨VID, PID, mixedConfig⟩

/-- Attached device that matches neither id. -/
def otherDev : Device := ⟨0x1234, 0x5678, ⟨[intfA]⟩⟩

/- Helper lemmas about the resolver loops. -/

/-- A successful inner scan returns an endpoint of the scanned list, and
that endpoint qualifies. -/
lemma findIntrOut_mem_qual : ∀ {l : List Endpoint} {ep : Endpoint},
    findIntrOut l = some ep → ep ∈ l ∧ qualifies ep = true := by
  intro l
  induction l with
  | nil => intro ep h; simp [findIntrOut] at h
  | cons e rest ih =>
    intro ep h
    by_cases hq : qualifies e = true
    · simp [findIntrOut, hq] at h
      subst h
      exact ⟨List.mem_cons_self _ _, hq⟩
    · simp [findIntrOut, hq] at h
      obtain ⟨hm, hq2⟩ := ih h
      exact ⟨List.mem_cons_of_mem _ hm, hq2⟩

/-- The inner scan fails exactly when no endpoint of the list qualifies. -/
lemma findIntrOut_eq_none : ∀ (l : List Endpoint),
    findIntrOut l = none ↔ ∀ ep ∈ l, qualifies ep = false := by
  intro l
  induction l with
  | nil => simp [findIntrOut]
  | cons e rest ih =>
    by_cases hq : qualifies e = true
    · simp [findIntrOut, hq]
    · rw [Bool.not_eq_true] at hq
      simp [findIntrOut, hq, ih]

/-- A state reached by the outer loop either comes from an interface of the
iterated list (whose first qualifying endpoint it holds) or is the initial
state untouched. -/
lemma resolveLoop_eq_some : ∀ (l : List Interface)
    (acc : Option (Endpoint × Interface)) (ep : Endpoint) (i : Interface),
    resolveLoop l acc = some (ep, i) →
    (i ∈ l ∧ findIntrOut i.endpoints = some ep) ∨ acc = some (ep, i) := by
  intro l
  induction l with
  | nil => intro acc ep i h; exact Or.inr h
  | cons j rest ih =>
    intro acc ep i h
    rcases ih (scanInterface acc j) ep i h with ⟨hm, hf⟩ | heq
    · exact Or.inl ⟨List.mem_cons_of_mem _ hm, hf⟩
    · unfold scanInterface at heq
      cases hfi : findIntrOut j.endpoints with
      | none => rw [hfi] at heq; exact Or.inr heq
      | some e =>
        rw [hfi] at heq
        simp only [Option.some.injEq, Prod.mk.injEq] at heq
        obtain ⟨he, hj⟩ := heq
        subst he; subst hj
        exact Or.inl ⟨List.mem_cons_self _ _, hfi⟩

/-- The outer loop is a left fold: it distributes over list append. -/
lemma resolveLoop_append : ∀ (a b : List Interface)
    (acc : Option (Endpoint × Interface)),
    resolveLoop (a ++ b) acc = resolveLoop b (resolveLoop a acc) := by
  intro a
  induction a with
  | nil => intro b acc; rfl
  | cons i rest ih => intro b acc; simp [resolveLoop, ih]

/-- Interfaces with no qualifying endpoint leave the loop state unchanged. -/
lemma resolveLoop_skip : ∀ (l : List Interface)
    (acc : Option (Endpoint × Interface)),
    (∀ j ∈ l, findIntrOut j.endpoints = none) → resolveLoop l acc = acc := by
  intro l
  induction l with
  | nil => intro acc _; rfl
  | cons j rest ih =>
    intro acc h
    have hj := h j (List.mem_cons_self _ _)
    have hrest : ∀ k ∈ rest, findIntrOut k.endpoints = none :=
      fun k hk => h k (List.mem_cons_of_mem _ hk)
    simp [resolveLoop, scanInterface, hj, ih _ hrest]

/-- The outer loop ends in `none` exactly when it started there and no
iterated interface holds a qualifying endpoint. -/
lemma resolveLoop_eq_none : ∀ (l : List Interface)
    (acc : Option (Endpoint × Interface)),
    resolveLoop l acc = none ↔
      acc = none ∧ ∀ j ∈ l, findIntrOut j.endpoints = none := by
  intro l
  induction l with
  | nil => intro acc; simp [resolveLoop]
  | cons j rest ih =>
    intro acc
    rw [resolveLoop, ih]
    cases hfi : findIntrOut j.endpoints with
    | some e => simp [scanInterface, hfi]
    | none =>
      simp only [scanInterface, hfi, List.mem_cons, forall_eq_or_imp]
      tauto

/-- Trace of a run aborted because no device matched. -/
lemma run_eq_notFound (devices : List Device) (h : find devices = none) :
    run devices = [Event.findDevice, Event.raiseError "Receiver not found"] := by
  simp [run, h]

/-- Trace of a run aborted because no interrupt-OUT endpoint was found. -/
lemma run_eq_noEndpoint (devices : List Device) (dev : Device)
    (h1 : find devices = some dev) (h2 : resolve dev.activeConfig = none) :
    run devices = [Event.findDevice, Event.setConfiguration,
      Event.getActiveConfiguration,
      Event.raiseError "Interrupt OUT endpoint not found"] := by
  simp [run, h1, h2]

/-- Trace of a run that reaches the final print. -/
lemma run_eq_success (devices : List Device) (dev : Device) (ep : Endpoint)
    (i : Interface) (h1 : find devices = some dev)
    (h2 : resolve dev.activeConfig = some (ep, i)) :
    run devices = [Event.findDevice, Event.setConfiguration,
      Event.getActiveConfiguration,
      Event.claimInterface i.bInterfaceNumber,
      Event.write ep.bEndpointAddress rumbleData,
      Event.sleep 2,
      Event.write ep.bEndpointAddress stopData,
      Event.printDone] := by
  simp [run, h1, h2]

/-- The trace computed by `run` satisfies the big-step relation. -/
lemma runs_run (devices : List Device) : Runs devices (run devices) := by
  cases hfind : find devices with
  | none =>
    rw [run_eq_notFound devices hfind]
    exact Runs.notFound devices hfind
  | some dev =>
    cases hres : resolve dev.activeConfig with
    | none =>
      rw [run_eq_noEndpoint devices dev hfind hres]
      exact Runs.noEndpoint devices dev hfind hres
    | some pr =>
      obtain ⟨ep, i⟩ := pr
      rw [run_eq_success devices dev ep i hfind hres]
      exact Runs.success devices dev ep i hfind hres

/-- The list of attached devices none of which matches the target ids
exactly when `find` fails. -/
lemma find_eq_none : ∀ (devices : List Device),
    find devices = none ↔
      ∀ d ∈ devices, ¬(d.idVendor = VID ∧ d.idProduct = PID) := by
  intro devices
  induction devices with
  | nil => simp [find]
  | cons d rest ih =>
    rw [find]
    by_cases hd : (d.idVendor == VID && d.idProduct == PID) = true
    · rw [if_pos hd]
      simp only [Bool.and_eq_true, beq_iff_eq] at hd
      simp [hd]
    · rw [if_neg hd]
      simp only [Bool.and_eq_true, beq_iff_eq] at hd
      simp only [ih, List.mem_cons, forall_eq_or_imp]
      tauto

/-- C1: with qualifying interrupt-OUT endpoints on two interfaces, the
claim (and the spec) demand the endpoint of the earlier interface,
`(epA, intfA)`. The code instead returns the qualifying endpoint of the
last such interface, `(epB, intfB)`, because the break on line 27 exits
only the inner endpoint loop, so later interfaces overwrite the
selection. -/
theorem resolve_two_interfaces_selects_last :
    resolve twoIntfConfig = some (epB, intfB) ∧
      (epB, intfB) ≠ (epA, intfA) := by
  decide

/-- C2: whenever endpoint resolution succeeds, the selected endpoint has
direction OUT and transfer type interrupt. -/
theorem resolve_selects_interrupt_out (cfg : Config) (ep : Endpoint)
    (i : Interface) (h : resolve cfg = some (ep, i)) :
    endpoint_direction ep.bEndpointAddress = ENDPOINT_OUT ∧
    endpoint_type ep.bmAttributes = ENDPOINT_TYPE_INTR := by
  rcases resolveLoop_eq_some cfg.interfaces none ep i h with ⟨_, hf⟩ | heq
  · have hq := (findIntrOut_mem_qual hf).2
    unfold qualifies at hq
    simp only [Bool.and_eq_true, beq_iff_eq] at hq
    exact hq
  · simp at heq

/-- Witness for C2 on a configuration holding both an interrupt-IN and an
interrupt-OUT endpoint: resolution selects the OUT one, `epA`. -/
theorem resolve_selects_interrupt_out_witness :
    endpoint_direction epA.bEndpointAddress = ENDPOINT_OUT ∧
    endpoint_type epA.bmAttributes = ENDPOINT_TYPE_INTR :=
  resolve_selects_interrupt_out mixedConfig epA intfMixed (by decide)

/-- C3: once a device is found, resolution fails exactly when no endpoint
of any interface of the active configuration is interrupt-OUT, and in that
case the run raises and stops: no interface claim and no write appears in
the trace. -/
theorem resolve_fails_iff_no_interrupt_out (devices : List Device)
    (dev : Device) (h : find devices = some dev) :
    (resolve dev.activeConfig = none ↔
      ∀ i ∈ dev.activeConfig.interfaces, ∀ ep ∈ i.endpoints,
        qualifies ep = false) ∧
    (resolve dev.activeConfig = none →
      run devices = [Event.findDevice, Event.setConfiguration,
        Event.getActiveConfiguration,
        Event.raiseError "Interrupt OUT endpoint not found"]) := by
  constructor
  · rw [resolve, resolveLoop_eq_none]
    simp [findIntrOut_eq_none]
  · intro h2
    exact run_eq_noEndpoint devices dev h h2

/-- Witness for C3 on a device exposing only a bulk-OUT and a control
endpoint: the run ends in the endpoint-not-found error with no claim and
no write. -/
theorem resolve_fails_iff_no_interrupt_out_witness :
    run [bulkDev] = [Event.findDevice, Event.setConfiguration,
      Event.getActiveConfiguration,
      Event.raiseError "Interrupt OUT endpoint not found"] :=
  (resolve_fails_iff_no_interrupt_out [bulkDev] bulkDev (by decide)).2
    (by decide)

/-- C4: the locator fails exactly when no attached device matches
idVendor 0x045E and idProduct 0x0719, and in that case the run raises
immediately: no configuration activation, resolution, claim or write
appears in the trace, and the trace is not empty (not a silent no-op). -/
theorem device_not_found_fatal (devices : List Device) :
    (find devices = none ↔
      ∀ d ∈ devices, ¬(d.idVendor = VID ∧ d.idProduct = PID)) ∧
    (find devices = none →
      run devices =
        [Event.findDevice, Event.raiseError "Receiver not found"]) :=
  ⟨find_eq_none devices, fun h => run_eq_notFound devices h⟩

/-- Witness for C4 on a device list holding only a non-matching device. -/
theorem device_not_found_fatal_witness :
    run [otherDev] = [Event.findDevice, Event.raiseError "Receiver not found"] :=
  (device_not_found_fatal [otherDev]).2 (by decide)

/-- C9: when interface `i` holds a qualifying endpoint and no later
interface does, resolution returns the first qualifying endpoint of `i`
regardless of how many earlier interfaces also qualify: the last
qualifying interface wins. -/
theorem resolve_last_qualifying_interface (l1 : List Interface)
    (i : Interface) (l2 : List Interface) (ep : Endpoint)
    (h1 : findIntrOut i.endpoints = some ep)
    (h2 : ∀ j ∈ l2, findIntrOut j.endpoints = none) :
    resolve ⟨l1 ++ i :: l2⟩ = some (ep, i) := by
  show resolveLoop (l1 ++ i :: l2) none = some (ep, i)
  rw [resolveLoop_append, resolveLoop, resolveLoop_skip l2 _ h2]
  simp [scanInterface, h1]

/-- Witness for C9: `intfB` is the last qualifying interface of
`twoIntfConfig`, so its endpoint `epB` is selected. -/
theorem resolve_last_qualifying_interface_witness :
    resolve ⟨[intfA] ++ intfB :: []⟩ = some (epB, intfB) :=
  resolve_last_qualifying_interface [intfA] intfB [] epB (by decide)
    (by decide)

/-- C5: a successful run performs exactly two write transfers, both to the
resolved endpoint's address, carrying the activation packet
[0,8,255,255,0,0,0,0] and then the deactivation packet [0,8,0,0,0,0,0,0],
each 8 bytes long. -/
theorem successful_run_writes (devices : List Device) (dev : Device)
    (ep : Endpoint) (i : Interface) (h1 : find devices = some dev)
    (h2 : resolve dev.activeConfig = some (ep, i)) :
    writesOf (run devices) =
      [(ep.bEndpointAddress, rumbleData), (ep.bEndpointAddress, stopData)] ∧
    rumbleData = [0, 8, 255, 255, 0, 0, 0, 0] ∧
    stopData = [0, 8, 0, 0, 0, 0, 0, 0] ∧
    rumbleData.length = 8 ∧ stopData.length = 8 := by
  refine ⟨?_, rfl, rfl, rfl, rfl⟩
  rw [run_eq_success devices dev ep i h1 h2]
  rfl

/-- Witness for C5 on a device with one interrupt-OUT endpoint. -/
theorem successful_run_writes_witness :
    writesOf (run [goodDev]) =
      [(epA.bEndpointAddress, rumbleData), (epA.bEndpointAddress, stopData)] ∧
    rumbleData = [0, 8, 255, 255, 0, 0, 0, 0] ∧
    stopData = [0, 8, 0, 0, 0, 0, 0, 0] ∧
    rumbleData.length = 8 ∧ stopData.length = 8 :=
  successful_run_writes [goodDev] goodDev epA intfA (by decide) (by decide)

/-- C6: a successful run performs, in this exact order and nothing else:
locate device, activate configuration, fetch the active configuration
(endpoint resolution is a pure computation on it), claim the owning
interface, write the activation packet, sleep the fixed interval, write
the deactivation packet, print the completion message. -/
theorem successful_run_sequence (devices : List Device) (dev : Device)
    (ep : Endpoint) (i : Interface) (h1 : find devices = some dev)
    (h2 : resolve dev.activeConfig = some (ep, i)) :
    run devices = [Event.findDevice, Event.setConfiguration,
      Event.getActiveConfiguration,
      Event.claimInterface i.bInterfaceNumber,
      Event.write ep.bEndpointAddress rumbleData,
      Event.sleep 2,
      Event.write ep.bEndpointAddress stopData,
      Event.printDone] :=
  run_eq_success devices dev ep i h1 h2

/-- Witness for C6 on a device with one interrupt-OUT endpoint. -/
theorem successful_run_sequence_witness :
    run [goodDev] = [Event.findDevice, Event.setConfiguration,
      Event.getActiveConfiguration,
      Event.claimInterface intfA.bInterfaceNumber,
      Event.write epA.bEndpointAddress rumbleData,
      Event.sleep 2,
      Event.write epA.bEndpointAddress stopData,
      Event.printDone] :=
  successful_run_sequence [goodDev] goodDev epA intfA (by decide) (by decide)

/-- C7: on every execution path — device not found, endpoint not found, or
full success — the trace holds no interface release event; since any
events performed before an uncaught transfer failure form a prefix of
this trace, no path releases the claimed interface before exit. -/
theorem no_release_ever (devices : List Device) :
    (run devices).any isRelease = false := by
  cases hfind : find devices with
  | none => rw [run_eq_notFound devices hfind]; rfl
  | some dev =>
    cases hres : resolve dev.activeConfig with
    | none => rw [run_eq_noEndpoint devices dev hfind hres]; rfl
    | some pr =>
      obtain ⟨ep, i⟩ := pr
      rw [run_eq_success devices dev ep i hfind hres]
      rfl

/-- C8: the interface paired with the selected endpoint is an interface of
the configuration and owns that endpoint, and the run claims exactly that
interface's number while writing to that endpoint's address. -/
theorem claimed_interface_owns_endpoint (devices : List Device)
    (dev : Device) (ep : Endpoint) (i : Interface)
    (h1 : find devices = some dev)
    (h2 : resolve dev.activeConfig = some (ep, i)) :
    i ∈ dev.activeConfig.interfaces ∧ ep ∈ i.endpoints ∧
    Event.claimInterface i.bInterfaceNumber ∈ run devices ∧
    Event.write ep.bEndpointAddress rumbleData ∈ run devices := by
  rcases resolveLoop_eq_some dev.activeConfig.interfaces none ep i h2 with
    ⟨hm, hf⟩ | heq
  · have hmem := (findIntrOut_mem_qual hf).1
    rw [run_eq_success devices dev ep i h1 h2]
    refine ⟨hm, hmem, ?_, ?_⟩ <;> simp
  · simp at heq

/-- Witness for C8 on a device with one interrupt-OUT endpoint. -/
theorem claimed_interface_owns_endpoint_witness :
    intfA ∈ goodDev.activeConfig.interfaces ∧ epA ∈ intfA.endpoints ∧
    Event.claimInterface intfA.bInterfaceNumber ∈ run [goodDev] ∧
    Event.write epA.bEndpointAddress rumbleData ∈ run [goodDev] :=
  claimed_interface_owns_endpoint [goodDev] goodDev epA intfA (by decide)
    (by decide)

/-- C10: the script is deterministic: for one fixed device state, any two
traces permitted by the big-step behaviour coincide — the same fatal
error, or the same claimed interface and the same two ordered writes. -/
theorem run_deterministic (devices : List Device) (t1 t2 : List Event)
    (h1 : Runs devices t1) (h2 : Runs devices t2) : t1 = t2 := by
  cases h1 <;> cases h2 <;> simp_all

/-- Witness for C10: the deterministic trace of a run on a device with one
interrupt-OUT endpoint, pinned by determinism against an explicit
derivation. -/
theorem run_deterministic_witness :
    run [goodDev] = [Event.findDevice, Event.setConfiguration,
      Event.getActiveConfiguration,
      Event.claimInterface intfA.bInterfaceNumber,
      Event.write epA.bEndpointAddress rumbleData,
      Event.sleep 2,
      Event.write epA.bEndpointAddress stopData,
      Event.printDone] :=
  run_deterministic [goodDev] _ _ (runs_run [goodDev])
    (Runs.success [goodDev] goodDev epA intfA (by decide) (by decide))

end Rumble
